import Mathlib

/-!
Verification of the core logic of the YieldWise application (src/app.py):
response post-processing (sentinel split, suggestion filter, title
extraction), the guest quota gate of the generation endpoint, ownership
checks on stored plans and diagnoses, follow-up chat history semantics,
showcase-token idempotence, and the substring-based failure classification
of the generation and diagnosis endpoints.

Python strings are modelled as `List Char`.  The external markdown renderer
and the external Gemini model are collaborators: the renderer is passed in
as a function, and the model is a stub recording whether it was invoked,
as the specification's testable properties themselves prescribe.
-/

namespace YieldWise

/-- Python strings are modelled as lists of characters. -/
abbrev Str := List Char

/-- The single-quote character (used to build HTML fragments containing it). -/
def sq : Char := Char.ofNat 39

/-- Whitespace characters removed by Python str.strip (ASCII portion:
space, tab, newline, carriage return, vertical tab, form feed). -/
def isPySpace (c : Char) : Bool :=
  c = ' ' || c = '\t' || c = '\n' || c = '\r' || c.toNat = 11 || c.toNat = 12

/-- Python str.strip(): drop leading and trailing whitespace. -/
def pyStrip (s : Str) : Str :=
  ((s.dropWhile isPySpace).reverse.dropWhile isPySpace).reverse

/-- Python str.capitalize(): uppercase the first character, lowercase the rest. -/
def pyCapitalize : Str → Str
  | [] => []
  | c :: rest => c.toUpper :: rest.map Char.toLower

/-- Python s.split(sep) for a one-character separator; keeps empty pieces,
so the result is always non-empty. -/
def splitOnChar (sep : Char) : Str → List Str
  | [] => [[]]
  | c :: rest =>
    match splitOnChar sep rest with
    | [] => [[]]
    | h :: t => if c = sep then [] :: h :: t else (c :: h) :: t

/-- The first line of a text: everything before the first newline. -/
def firstLine (s : Str) : Str := (splitOnChar '\n' s).headD []

/-- Split at the first occurrence of `sep`: returns the parts strictly
before and strictly after it, or none when `sep` does not occur.
This models Python s.split(sep, 1) together with the `sep in s` test. -/
def findSplit (sep : Str) : Str → Option (Str × Str)
  | [] => none
  | c :: rest =>
    if sep.isPrefixOf (c :: rest) then some ([], (c :: rest).drop sep.length)
    else
      match findSplit sep rest with
      | some pr => some (c :: pr.1, pr.2)
      | none => none

/-- Auxiliary scanner for removeAll, structurally recursive on a fuel
argument so that it reduces inside the kernel; each step consumes one fuel
unit and at least one input character, so fuel equal to the input length
always suffices (the zero-fuel fallback is unreachable then). -/
def removeAllFuel (pat : Str) : Nat → Str → Str
  | _, [] => []
  | 0, s => s
  | fuel + 1, c :: rest =>
    if pat ≠ [] ∧ pat.isPrefixOf (c :: rest) then
      removeAllFuel pat fuel ((c :: rest).drop pat.length)
    else
      c :: removeAllFuel pat fuel rest

/-- Python s.replace(pat, empty): delete non-overlapping occurrences of a
non-empty pattern, scanning left to right. -/
def removeAll (pat : Str) (s : Str) : Str := removeAllFuel pat s.length s

/-- The sentinel separating the primary model answer from the suggestions. -/
def sentinel : Str := "---SUGGESTIONS---".toList

/-- The suggestion-line filter of src/app.py lines 203 and 256: a line
survives when, after stripping, it is non-empty and starts with one of the
characters 1 to 5 (Python: any(startswith(str(i)) for i in range(1, 6))),
and the kept entry is the stripped line. -/
def keepLine (s : Str) : Option Str :=
  if pyStrip s ≠ [] ∧
      ((['1', '2', '3', '4', '5'] : List Char).any fun d => [d].isPrefixOf (pyStrip s)) then
    some (pyStrip s)
  else
    none

/-- The suggestions list comprehension: strip the suggestions half, split it
into lines, keep the filtered stripped lines. -/
def suggestionItems (suggestionsText : Str) : List Str :=
  (splitOnChar '\n' (pyStrip suggestionsText)).filterMap keepLine

/-- Shared post-processing of a raw model response (lines 201-205 and
252-258): split on the first sentinel occurrence; the part before is the
primary text, the part after yields at most three suggestion lines; when
the sentinel is absent the whole response is primary and there are no
suggestions. -/
def splitResponse (full : Str) : Str × List Str :=
  match findSplit sentinel full with
  | some pr => (pr.1, (suggestionItems pr.2).take 3)
  | none => (full, [])

/-! ## The external model stub and the two AI helper functions -/

/-- Outcome of one call to the external model: a text response, or an
exception (network failure, malformed response, quota). -/
inductive ModelResult where
  | ok (text : Str)
  | err
deriving DecidableEq

/-- The global Gemini handle: configured or not, and, when invoked, the
result of generate_content.  The stub is input-independent, matching the
specification's stub-collaborator observation model. -/
structure Backend where
  configured : Bool
  result : ModelResult
deriving DecidableEq

/-- The stubbed generate_content call; the prompt is received but the
stub's answer does not depend on it. -/
def Backend.generate (b : Backend) (_prompt : Str) : ModelResult := b.result

/-- The fixed unavailable-service HTML fragment returned by both AI helper
functions when no model is configured (lines 123 and 217). -/
def unavailableFragment : Str :=
  "<p class=".toList ++ [sq] ++ "error-message".toList ++ [sq] ++
    ">AI service is currently unavailable. Please contact support to enable Gemini API.</p>".toList

/-- The fragment returned by generate_farm_plan when the model call raises
(line 211). -/
def planErrorFragment : Str :=
  "<p class=".toList ++ [sq] ++ "error-message".toList ++ [sq] ++
    ">Error: Could not generate the plan. Please try again.</p>".toList

/-- The fragment returned by diagnose_plant_issue when the model call
raises (line 264). -/
def diagnoseErrorFragment : Str :=
  "<p class=".toList ++ [sq] ++ "error-message".toList ++ [sq] ++
    ">Sorry, an error occurred while analyzing the image.</p>".toList

/-- The title string returned by diagnose_plant_issue on its error paths. -/
def errorTitle : Str := "Error".toList

/-- generate_farm_plan (lines 119-211), instrumented with a flag recording
whether the external model was invoked.  `render` is the external
markdown-to-HTML collaborator.  Returns ((plan_html, suggestions), called). -/
def generate_farm_plan (render : Str → Str) (backend : Backend) :
    (Str × List Str) × Bool :=
  if backend.configured = false then ((unavailableFragment, []), false)
  else
    match backend.result with
    | .err => ((planErrorFragment, []), true)
    | .ok full => ((render (splitResponse full).1, (splitResponse full).2), true)

/-- The literal prefix removed from the candidate title line (line 255). -/
def titleTag : Str := "**Title:**".toList

/-- The hash character removed from the candidate title line (line 255). -/
def hashStr : Str := "#".toList

/-- The synthesized default title (lines 255 and 258). -/
def defaultTitle (crop : Str) : Str := "Diagnosis for ".toList ++ crop

/-- The candidate title computed from the primary report text (lines
254-255): first line of the stripped text, with every occurrence of the
title tag and of the hash character removed, then stripped. -/
def cleanedTitleLine (reportText : Str) : Str :=
  pyStrip (removeAll hashStr (removeAll titleTag (firstLine (pyStrip reportText))))

/-- Title extraction of diagnose_plant_issue (line 255): the cleaned first
line, or the default title when the cleaned line is empty (Python
`x or default` on strings). -/
def extractTitle (reportText : Str) (crop : Str) : Str :=
  if cleanedTitleLine reportText = [] then defaultTitle crop else cleanedTitleLine reportText

/-- diagnose_plant_issue (lines 213-264), instrumented like
generate_farm_plan.  Returns ((title, report_html, suggestions), called). -/
def diagnose_plant_issue (render : Str → Str) (backend : Backend) (crop : Str) :
    (Str × Str × List Str) × Bool :=
  if backend.configured = false then ((errorTitle, unavailableFragment, []), false)
  else
    match backend.result with
    | .err => ((errorTitle, diagnoseErrorFragment, []), true)
    | .ok full =>
      match findSplit sentinel full with
      | some pr =>
        ((extractTitle pr.1 crop, render pr.1, (suggestionItems pr.2).take 3), true)
      | none => ((defaultTitle crop, render full, []), true)

/-! ## The data model: stored rows and the database -/

/-- A farm_plans row (schema lines 66-74); created_at is represented by
list position (insertion order). -/
structure FarmPlanRow where
  id : Nat
  user_id : Option Nat
  location : Str
  country : Str
  currency : Str
  plan_html : Str
  showcase_id : Option Str
deriving DecidableEq

/-- A diagnoses row (schema line 76). -/
structure DiagnosisRow where
  id : Nat
  user_id : Nat
  title : Str
  crop_type : Str
  report_html : Str
deriving DecidableEq

/-- One chat turn: role and content (schema lines 75 and 77). -/
structure ChatTurn where
  role : Str
  content : Str
deriving DecidableEq

/-- The chat turn inserted for a new user question. -/
def userTurn (q : Str) : ChatTurn := ⟨"user".toList, q⟩

/-- The chat turn inserted for a model answer. -/
def assistantTurn (a : Str) : ChatTurn := ⟨"assistant".toList, a⟩

/-- The persistent store: the four tables the claims touch.  Chat rows are
kept as (parent id, turn) pairs in insertion order, which is the
created_at order the queries sort by. -/
structure DB where
  plans : List FarmPlanRow
  plan_chats : List (Nat × ChatTurn)
  diagnoses : List DiagnosisRow
  diag_chats : List (Nat × ChatTurn)
deriving DecidableEq

/-- SELECT * FROM farm_plans WHERE id = ? AND user_id = ? (first match). -/
def fetchPlan (db : DB) (pid uid : Nat) : Option FarmPlanRow :=
  db.plans.find? fun r => r.id == pid && r.user_id == some uid

/-- SELECT * FROM diagnoses WHERE id = ? AND user_id = ? (first match). -/
def fetchDiagnosis (db : DB) (did uid : Nat) : Option DiagnosisRow :=
  db.diagnoses.find? fun r => r.id == did && r.user_id == uid

/-- SELECT role, content FROM chat_history WHERE plan_id = ? ORDER BY created_at. -/
def planHistory (db : DB) (pid : Nat) : List ChatTurn :=
  (db.plan_chats.filter fun e => e.1 == pid).map Prod.snd

/-- SELECT role, content FROM diagnoses_chat_history WHERE diagnosis_id = ?. -/
def diagHistory (db : DB) (did : Nat) : List ChatTurn :=
  (db.diag_chats.filter fun e => e.1 == did).map Prod.snd

/-! ## Conversation assembly for the follow-up endpoints -/

/-- One history turn as rendered into the linear context (lines 597-598 and
652-653): capitalized role, colon and space, content, newline. -/
def renderTurn (t : ChatTurn) : Str :=
  pyCapitalize t.role ++ ": ".toList ++ t.content ++ ['\n']

/-- The new-question segment shared by lines 599 and 654 up to the closing
instruction (the apostrophe is built explicitly). -/
def newQuestionPart (q : Str) : Str :=
  ['\n'] ++ "User".toList ++ [sq] ++ "s new question: ".toList ++ q

/-- The conversation context built by api_follow_up (lines 596-599). -/
def buildPlanConversation (planHtml : Str) (history : List ChatTurn) (q : Str) : Str :=
  "Initial Farm Plan:\n".toList ++ planHtml ++ "\n\n".toList ++
    (history.map renderTurn).flatten ++
    newQuestionPart q ++ "\n\nProvide a helpful, practical answer:".toList

/-- The conversation context built by api_diagnose_follow_up (lines 651-654). -/
def buildDiagConversation (reportHtml : Str) (history : List ChatTurn) (q : Str) : Str :=
  "Initial Diagnosis:\n".toList ++ reportHtml ++ "\n\n".toList ++
    (history.map renderTurn).flatten ++
    newQuestionPart q ++ "\n\nProvide a helpful answer:".toList

/-! ## The API endpoints the claims are about -/

/-- The fixed body of the 503 unavailable response of the follow-up and
knowledge endpoints (lines 593, 648, 680). -/
def followUpUnavailableBody : Str := "AI service is currently unavailable.".toList

/-- Responses of the two follow-up endpoints. -/
inductive FollowUpResp where
  | missingData
  | shortQuestion
  | notFound
  | unavailable
  | serverError
  | answer (html : Str)
deriving DecidableEq

/-- HTTP status of a follow-up response. -/
def FollowUpResp.status : FollowUpResp → Nat
  | .missingData => 400
  | .shortQuestion => 400
  | .notFound => 404
  | .unavailable => 503
  | .serverError => 500
  | .answer _ => 200

/-- The error body carried by a follow-up error response, when any. -/
def FollowUpResp.errorBody : FollowUpResp → Option Str
  | .unavailable => some followUpUnavailableBody
  | .serverError => some "Sorry, an error occurred.".toList
  | .notFound => some "Plan not found or access denied".toList
  | _ => none

/-- POST /api/follow_up (lines 559-612).  Returns the response, the updated
database, and whether the external model was invoked.  The history shown to
the model is read before the new user turn is inserted, and the user turn
is inserted (and committed) before the model availability check and call. -/
def api_follow_up (render : Str → Str) (backend : Backend) (uid : Nat)
    (db : DB) (pid : Nat) (q : Str) : FollowUpResp × DB × Bool :=
  if pid = 0 ∨ q = [] then (.missingData, db, false)
  else if (pyStrip q).length < 3 then (.shortQuestion, db, false)
  else
    match fetchPlan db pid uid with
    | none => (.notFound, db, false)
    | some plan =>
      let history := planHistory db pid
      let db1 : DB := { db with plan_chats := db.plan_chats ++ [(pid, userTurn q)] }
      if backend.configured = false then (.unavailable, db1, false)
      else
        match backend.generate (buildPlanConversation plan.plan_html history q) with
        | .err => (.serverError, db1, true)
        | .ok answer =>
          (.answer (render answer),
            { db1 with plan_chats := db1.plan_chats ++ [(pid, assistantTurn answer)] },
            true)

/-- POST /api/diagnose_follow_up (lines 614-667), mirroring api_follow_up
on the diagnoses tables. -/
def api_diagnose_follow_up (render : Str → Str) (backend : Backend) (uid : Nat)
    (db : DB) (did : Nat) (q : Str) : FollowUpResp × DB × Bool :=
  if did = 0 ∨ q = [] then (.missingData, db, false)
  else if (pyStrip q).length < 3 then (.shortQuestion, db, false)
  else
    match fetchDiagnosis db did uid with
    | none => (.notFound, db, false)
    | some diagnosis =>
      let history := diagHistory db did
      let db1 : DB := { db with diag_chats := db.diag_chats ++ [(did, userTurn q)] }
      if backend.configured = false then (.unavailable, db1, false)
      else
        match backend.generate (buildDiagConversation diagnosis.report_html history q) with
        | .err => (.serverError, db1, true)
        | .ok answer =>
          (.answer (render answer),
            { db1 with diag_chats := db1.diag_chats ++ [(did, assistantTurn answer)] },
            true)

/-! ## The generation endpoint with its guest quota gate -/

/-- The guest plan cached in the session on a free generation (lines 489-494). -/
structure GuestPlan where
  plan_html : Str
  location : Str
  country : Str
  currency : Str
deriving DecidableEq

/-- The per-browser session state the generation endpoint reads and writes. -/
structure Session where
  free_plan_used : Bool
  guest_plan : Option GuestPlan
deriving DecidableEq

/-- A generation request that already passed the field validation of lines
456-472. -/
structure GenRequest where
  location : Str
  space : Str
  budget : Str
  country : Str
  currency : Str
deriving DecidableEq

/-- Responses of POST /api/generate past validation. -/
inductive GenResp where
  | serverError (body : Str)
  | quotaExceeded
  | okGuest (plan : Str) (suggestions : List Str)
  | okUser (plan : Str) (plan_id : Nat) (suggestions : List Str)
deriving DecidableEq

/-- HTTP status of a generation response. -/
def GenResp.status : GenResp → Nat
  | .serverError _ => 500
  | .quotaExceeded => 429
  | .okGuest _ _ => 200
  | .okUser _ _ _ => 200

/-- The marker whose presence in the produced HTML makes the endpoint treat
the generation as failed (line 478). -/
def errorMarker : Str := "error-message".toList

/-- POST /api/generate from line 474 on (after the field validation of
lines 456-472): call the AI helper, return a 500 when the produced HTML
contains the error marker, then apply the guest gate, or persist the plan
for an authenticated user.  `auth` is the authenticated user's id (none for
a guest session); `newId` stands for the row id assigned by the database
(cursor.lastrowid).  Returns (response, session, database, model called). -/
def api_generate (render : Str → Str) (backend : Backend) (auth : Option Nat)
    (sess : Session) (req : GenRequest) (newId : Nat) (db : DB) :
    GenResp × Session × DB × Bool :=
  let gen := generate_farm_plan render backend
  let plan_html := gen.1.1
  let suggestions := gen.1.2
  let called := gen.2
  if (findSplit errorMarker plan_html).isSome then
    (.serverError plan_html, sess, db, called)
  else
    match auth with
    | none =>
      if sess.free_plan_used then (.quotaExceeded, sess, db, called)
      else
        (.okGuest plan_html suggestions,
          { free_plan_used := true,
            guest_plan := some ⟨plan_html, req.location, req.country, req.currency⟩ },
          db, called)
    | some uid =>
      (.okUser plan_html newId suggestions, sess,
        { db with plans := db.plans ++
            [{ id := newId, user_id := some uid, location := req.location,
               country := req.country, currency := req.currency,
               plan_html := plan_html, showcase_id := none }] },
        called)

/-! ## The diagnosis endpoint -/

/-- Responses of POST /api/diagnose past upload validation. -/
inductive DiagResp where
  | serverError (body : Str)
  | ok (title : Str) (diagnosis : Str) (suggestions : List Str) (diagnosis_id : Nat)
deriving DecidableEq

/-- HTTP status of a diagnosis response. -/
def DiagResp.status : DiagResp → Nat
  | .serverError _ => 500
  | .ok _ _ _ _ => 200

/-- The marker whose presence in the extracted title makes the endpoint
treat the diagnosis as failed (line 537). -/
def titleErrorMarker : Str := "Error".toList

/-- POST /api/diagnose core (lines 534-555, after the upload validation of
lines 515-532): call the AI helper, return a 500 when the title contains
the marker, else persist the diagnosis.  Returns (response, database,
model called). -/
def api_diagnose (render : Str → Str) (backend : Backend) (uid : Nat)
    (crop : Str) (newId : Nat) (db : DB) : DiagResp × DB × Bool :=
  let d := diagnose_plant_issue render backend crop
  let title := d.1.1
  let report_html := d.1.2.1
  let suggestions := d.1.2.2
  let called := d.2
  if (findSplit titleErrorMarker title).isSome then
    (.serverError report_html, db, called)
  else
    (.ok title report_html suggestions newId,
      { db with diagnoses := db.diagnoses ++
          [{ id := newId, user_id := uid, title := title, crop_type := crop,
             report_html := report_html }] },
      called)

/-! ## Read, delete, and showcase endpoints -/

/-- Responses of GET /api/get_plan. -/
inductive GetPlanResp where
  | notFound
  | ok (plan : FarmPlanRow) (history : List ChatTurn)
deriving DecidableEq

/-- HTTP status of a get_plan response. -/
def GetPlanResp.status : GetPlanResp → Nat
  | .notFound => 404
  | .ok _ _ => 200

/-- GET /api/get_plan (lines 757-778). -/
def get_plan (db : DB) (uid pid : Nat) : GetPlanResp :=
  match fetchPlan db pid uid with
  | none => .notFound
  | some p => .ok p (planHistory db pid)

/-- Responses of GET /api/get_diagnosis. -/
inductive GetDiagResp where
  | notFound
  | ok (diagnosis : DiagnosisRow) (history : List ChatTurn)
deriving DecidableEq

/-- HTTP status of a get_diagnosis response. -/
def GetDiagResp.status : GetDiagResp → Nat
  | .notFound => 404
  | .ok _ _ => 200

/-- GET /api/get_diagnosis (lines 801-822). -/
def get_diagnosis (db : DB) (uid did : Nat) : GetDiagResp :=
  match fetchDiagnosis db did uid with
  | none => .notFound
  | some d => .ok d (diagHistory db did)

/-- Responses of the two delete endpoints. -/
inductive DeleteResp where
  | notFound
  | success
deriving DecidableEq

/-- HTTP status of a delete response. -/
def DeleteResp.status : DeleteResp → Nat
  | .notFound => 404
  | .success => 200

/-- DELETE /api/delete_plan (lines 780-799): ownership check, then the
cascading delete of the chat rows and the plan row. -/
def delete_plan (db : DB) (uid pid : Nat) : DeleteResp × DB :=
  match fetchPlan db pid uid with
  | none => (.notFound, db)
  | some _ =>
    (.success,
      { db with
        plans := db.plans.filter fun r => !(r.id == pid && r.user_id == some uid),
        plan_chats := db.plan_chats.filter fun e => !(e.1 == pid) })

/-- DELETE /api/delete_diagnosis (lines 824-843). -/
def delete_diagnosis (db : DB) (uid did : Nat) : DeleteResp × DB :=
  match fetchDiagnosis db did uid with
  | none => (.notFound, db)
  | some _ =>
    (.success,
      { db with
        diagnoses := db.diagnoses.filter fun r => !(r.id == did && r.user_id == uid),
        diag_chats := db.diag_chats.filter fun e => !(e.1 == did) })

/-- Responses of POST /api/create_showcase. -/
inductive ShowcaseResp where
  | badRequest
  | notFound
  | ok (showcase_id : Str)
deriving DecidableEq

/-- UPDATE farm_plans SET showcase_id = ? WHERE id = ? AND user_id = ?. -/
def setShowcase (db : DB) (pid uid : Nat) (token : Str) : DB :=
  { db with plans := db.plans.map fun r =>
      if r.id == pid && r.user_id == some uid then { r with showcase_id := some token }
      else r }

/-- POST /api/create_showcase (lines 718-755): ownership check, return the
existing token when one is set (Python truthiness: non-null and non-empty),
else assign fresh.  `fresh` stands for str(uuid.uuid4()). -/
def api_create_showcase (db : DB) (uid : Nat) (pid : Nat) (fresh : Str) :
    ShowcaseResp × DB :=
  if pid = 0 then (.badRequest, db)
  else
    match fetchPlan db pid uid with
    | none => (.notFound, db)
    | some plan =>
      match plan.showcase_id with
      | some t =>
        if t = [] then (.ok fresh, setShowcase db pid uid fresh)
        else (.ok t, db)
      | none => (.ok fresh, setShowcase db pid uid fresh)

/-! ## Concrete instances used by witnesses and counterexamples -/

/-- The identity markdown renderer used for concrete runs. -/
def idRender : Str → Str := fun s => s

/-- A raw model response containing the sentinel. -/
def demoFull : Str := "Plan body.---SUGGESTIONS---\n1. First question".toList

/-- A suggestions half exercising the filter on dash and digit lines. -/
def demoSugg : Str := "- Ask about pests\n4. Use mulch".toList

/-- A validated generation request. -/
def demoReq : GenRequest :=
  ⟨"Lagos".toList, "about half a plot".toList, "50000".toList,
    "Nigeria".toList, "NGN".toList⟩

/-- The empty database. -/
def emptyDB : DB := ⟨[], [], [], []⟩

/-- A plan row owned by user 2. -/
def demoPlanRow : FarmPlanRow :=
  ⟨5, some 2, "Lagos".toList, "Nigeria".toList, "NGN".toList,
    "<p>the plan</p>".toList, none⟩

/-- A diagnosis row owned by user 2. -/
def demoDiagRow : DiagnosisRow :=
  ⟨7, 2, "Leaf blight".toList, "maize".toList, "<p>the report</p>".toList⟩

/-- A database holding one plan and one diagnosis, both owned by user 2. -/
def demoDB : DB := ⟨[demoPlanRow], [], [demoDiagRow], []⟩

/-- A question of valid length. -/
def demoQ : Str := "How much water?".toList

/-- The history of the specification's assembler example: a user question
and an assistant answer. -/
def demoHistory : List ChatTurn :=
  [⟨"user".toList, "Q1".toList⟩, ⟨"assistant".toList, "A1".toList⟩]

/-- A model answer text. -/
def demoAnswer : Str := "Water twice daily.".toList

/-- A configured backend whose model call succeeds with a harmless text. -/
def demoOkBackend : Backend := ⟨true, .ok "All fine here.".toList⟩

/-- A configured backend whose model call raises. -/
def demoErrBackend : Backend := ⟨true, .err⟩

/-- An unconfigured backend. -/
def demoNoBackend : Backend := ⟨false, .err⟩

/-- A raw diagnosis response whose first line is plain prose (it matches
neither a title tag nor a heading pattern). -/
def demoDiagFull : Str :=
  "Leaf spot disease\nDetails follow.---SUGGESTIONS---\n1. What next?".toList

/-- A successful model output whose legitimate content contains the
substring error-message. -/
def demoMarkerPlan : Str :=
  "Avoid writing error-message text on market signage.".toList

/-- A successful diagnosis output whose legitimately extracted title
contains the substring Error. -/
def demoErrorTitleFull : Str :=
  "**Title:** Fertilizer Error Burn\nDetails.---SUGGESTIONS---\n1. What next?".toList

/-- Ordered occurrence: the given pieces appear inside the text in the
given order, without overlapping. -/
def appearsInOrder : List Str → Str → Prop
  | [], _ => True
  | p :: ps, s => ∃ u v, s = u ++ p ++ v ∧ appearsInOrder ps v

/-- The follow-up question filter of the specification's claim C4, worded
as the claim states it: lines kept when they start with 1, 2, 3, or a dash
and a space.  Stated only for comparison with the source-derived
suggestionItems. -/
def claimSuggestionItems (t : Str) : List Str :=
  (splitOnChar '\n' (pyStrip t)).filterMap fun s =>
    let u := pyStrip s
    if u ≠ [] ∧ (["1".toList, "2".toList, "3".toList, "- ".toList].any
        fun pre => pre.isPrefixOf u) then
      some u
    else
      none

/-! ## Helper lemmas on the string operations -/

/-- When findSplit succeeds the input decomposes around the separator, and
the separator does not occur in the part before it (first occurrence). -/
theorem findSplit_eq_some (sep : Str) (hsep : sep ≠ []) :
    ∀ s pre post, findSplit sep s = some (pre, post) →
      s = pre ++ sep ++ post ∧ ¬ sep <:+: pre := by
  intro s
  induction s with
  | nil => intro pre post h; simp [findSplit] at h
  | cons c rest ih =>
    intro pre post h
    rw [findSplit] at h
    by_cases hp : sep.isPrefixOf (c :: rest)
    · rw [if_pos hp] at h
      simp only [Option.some.injEq, Prod.mk.injEq] at h
      obtain ⟨hpre, hpost⟩ := h
      obtain ⟨t, ht⟩ := List.isPrefixOf_iff_prefix.mp hp
      subst hpre
      constructor
      · rw [← hpost, ← ht, List.drop_left]
        simp
      · intro hinf
        exact hsep (List.eq_nil_of_infix_nil hinf)
    · rw [if_neg hp] at h
      cases hfs : findSplit sep rest with
      | none => rw [hfs] at h; simp at h
      | some pr =>
        rw [hfs] at h
        simp only [Option.some.injEq, Prod.mk.injEq] at h
        obtain ⟨hpre, hpost⟩ := h
        obtain ⟨hrest, hninf⟩ := ih pr.1 pr.2 (by rw [hfs])
        subst hpre
        subst hpost
        constructor
        · rw [hrest]
          simp
        · intro hinf
          rcases List.infix_cons_iff.mp hinf with hpref | htail
          · obtain ⟨u, hu⟩ := hpref
            apply hp
            rw [List.isPrefixOf_iff_prefix]
            refine ⟨u ++ sep ++ pr.2, ?_⟩
            calc sep ++ (u ++ sep ++ pr.2) = (sep ++ u) ++ (sep ++ pr.2) := by
                  simp [List.append_assoc]
              _ = (c :: pr.1) ++ (sep ++ pr.2) := by rw [hu]
              _ = c :: rest := by rw [List.cons_append, hrest]; simp [List.append_assoc]
          · exact hninf htail

/-- When findSplit fails, the separator does not occur in the input. -/
theorem findSplit_eq_none (sep : Str) (hsep : sep ≠ []) :
    ∀ s, findSplit sep s = none → ¬ sep <:+: s := by
  intro s
  induction s with
  | nil => intro _ hinf; exact hsep (List.eq_nil_of_infix_nil hinf)
  | cons c rest ih =>
    intro h hinf
    rw [findSplit] at h
    by_cases hp : sep.isPrefixOf (c :: rest)
    · rw [if_pos hp] at h; simp at h
    · rw [if_neg hp] at h
      rcases List.infix_cons_iff.mp hinf with hpref | htail
      · exact hp (List.isPrefixOf_iff_prefix.mpr hpref)
      · cases hfs : findSplit sep rest with
        | some pr => rw [hfs] at h; simp at h
        | none => exact ih hfs htail

/-- dropWhile is idempotent. -/
theorem dropWhile_dropWhile (p : Char → Bool) (l : Str) :
    (l.dropWhile p).dropWhile p = l.dropWhile p := by
  induction l with
  | nil => rfl
  | cons c rest ih =>
    by_cases h : p c
    · simp only [List.dropWhile_cons, h, if_true]
      exact ih
    · simp [List.dropWhile_cons, h]

/-- A prefix of a list unchanged by dropWhile is itself unchanged. -/
theorem dropWhile_eq_self_of_prefix (p : Char → Bool) (l b : Str)
    (hl : l.dropWhile p = l) (hb : b <+: l) : b.dropWhile p = b := by
  cases b with
  | nil => rfl
  | cons x xs =>
    obtain ⟨t, ht⟩ := hb
    cases l with
    | nil => simp at ht
    | cons y ys =>
      rw [List.cons_append] at ht
      obtain ⟨hxy, -⟩ : x = y ∧ xs ++ t = ys := by
        constructor
        · exact (List.cons.injEq _ _ _ _ ▸ ht).1
        · exact (List.cons.injEq _ _ _ _ ▸ ht).2
      have hpy : p y = false := by
        by_contra hc
        have hpy' : p y = true := by
          cases hpyv : p y with
          | false => exact absurd hpyv hc
          | true => rfl
        rw [List.dropWhile_cons, hpy', if_pos rfl] at hl
        have := congrArg List.length hl
        have hle := (List.dropWhile_sublist (l := ys) p).length_le
        simp at this
        omega
      rw [List.dropWhile_cons, hxy, hpy]
      simp

/-- pyStrip is idempotent. -/
theorem pyStrip_pyStrip (s : Str) : pyStrip (pyStrip s) = pyStrip s := by
  unfold pyStrip
  have h1 : (s.dropWhile isPySpace).dropWhile isPySpace = s.dropWhile isPySpace :=
    dropWhile_dropWhile isPySpace s
  have h2 : ((s.dropWhile isPySpace).reverse.dropWhile isPySpace).reverse <+:
      s.dropWhile isPySpace := by
    have hsfx := List.dropWhile_suffix (l := (s.dropWhile isPySpace).reverse) isPySpace
    have hpre := List.reverse_prefix.mpr hsfx
    rwa [List.reverse_reverse] at hpre
  have h3 := dropWhile_eq_self_of_prefix isPySpace _ _ h1 h2
  rw [h3, List.reverse_reverse, dropWhile_dropWhile]

/-- What keepLine keeping a line means: the kept entry is the stripped
line, non-empty, starting with a digit character 1 to 5. -/
theorem keepLine_eq_some (s x : Str) (h : keepLine s = some x) :
    x = pyStrip s ∧ x ≠ [] ∧
      ∃ d ∈ (['1', '2', '3', '4', '5'] : List Char), [d].isPrefixOf x := by
  unfold keepLine at h
  split_ifs at h with hc
  · obtain ⟨hne, hany⟩ := hc
    obtain ⟨d, hd, hpre⟩ := List.any_eq_true.mp hany
    simp only [Option.some.injEq] at h
    subst h
    exact ⟨rfl, hne, d, hd, hpre⟩

/-! ## Claim C3: the sentinel split -/

/-- Claim C3: the post-processor splits a raw model response on the first
occurrence of the sentinel: the part before it becomes the primary answer
(and hence the primary answer never contains the sentinel) and the part
after it feeds the suggestions list; when the sentinel is absent, the
entire response is the primary answer and the suggestions list is empty. -/
theorem C3_sentinel_split (full : Str) :
    ¬ sentinel <:+: (splitResponse full).1 ∧
    (sentinel <:+: full →
      ∃ rest, full = (splitResponse full).1 ++ sentinel ++ rest ∧
        (splitResponse full).2 = (suggestionItems rest).take 3) ∧
    (¬ sentinel <:+: full → splitResponse full = (full, [])) := by
  have hsep : sentinel ≠ [] := by decide
  cases hfs : findSplit sentinel full with
  | none =>
    have hninf := findSplit_eq_none sentinel hsep full hfs
    refine ⟨?_, ?_, ?_⟩
    · simp only [splitResponse, hfs]
      exact hninf
    · intro h
      exact absurd h hninf
    · intro _
      simp only [splitResponse, hfs]
  | some pr =>
    obtain ⟨hdec, hninf⟩ := findSplit_eq_some sentinel hsep full pr.1 pr.2 (by rw [hfs])
    refine ⟨?_, ?_, ?_⟩
    · simp only [splitResponse, hfs]
      exact hninf
    · intro _
      refine ⟨pr.2, ?_, ?_⟩ <;> simp only [splitResponse, hfs]
      exact hdec
    · intro h
      exact absurd ⟨pr.1, pr.2, hdec.symm⟩ h

/-- Concrete run of the C3 theorem: on a response containing the sentinel,
the suggestions derive from the part after it. -/
theorem C3_sentinel_split_witness :
    ∃ rest, demoFull = (splitResponse demoFull).1 ++ sentinel ++ rest ∧
      (splitResponse demoFull).2 = (suggestionItems rest).take 3 :=
  (C3_sentinel_split demoFull).2.1 (by decide)

/-! ## Claim C4: the suggestion filter -/

/-- Claim C4 as stated is false: the source filter keeps the lines that,
after stripping, start with any of the digit characters 1 to 5 (Python
range(1, 6)), not the lines starting with 1, 2, 3, or dash-space: on this
input the dash line is dropped and the line starting with 4 is kept, while
the claim's own filter does the opposite. -/
theorem C4_counterexample :
    suggestionItems demoSugg ≠ claimSuggestionItems demoSugg ∧
    suggestionItems demoSugg = ["4. Use mulch".toList] ∧
    claimSuggestionItems demoSugg = ["- Ask about pests".toList] := by
  refine ⟨?_, ?_, ?_⟩ <;> decide

/-- Claim C4 amended: the filter keeps only stripped lines that are
non-empty and start with one of the digit characters 1 to 5, the list is
truncated to at most three entries, and every entry is non-empty and
unchanged by further trimming. -/
theorem C4_amended (t : Str) :
    ((suggestionItems t).take 3).length ≤ 3 ∧
    ∀ x ∈ (suggestionItems t).take 3,
      pyStrip x = x ∧ x ≠ [] ∧
        ∃ d ∈ (['1', '2', '3', '4', '5'] : List Char), [d].isPrefixOf x := by
  constructor
  · exact List.length_take_le 3 _
  · intro x hx
    have hx' := List.mem_of_mem_take hx
    obtain ⟨s, hs, hk⟩ := List.mem_filterMap.mp hx'
    obtain ⟨hxs, hne, d, hd, hpre⟩ := keepLine_eq_some s x hk
    refine ⟨?_, hne, d, hd, hpre⟩
    rw [hxs]
    exact pyStrip_pyStrip s

/-- Concrete run of the amended C4 theorem. -/
theorem C4_amended_witness :
    ((suggestionItems demoSugg).take 3).length ≤ 3 ∧
    ∀ x ∈ (suggestionItems demoSugg).take 3,
      pyStrip x = x ∧ x ≠ [] ∧
        ∃ d ∈ (['1', '2', '3', '4', '5'] : List Char), [d].isPrefixOf x :=
  C4_amended demoSugg

/-! ## Claim C8: diagnosis title extraction -/

/-- Claim C8 as stated is false: on a diagnosis response whose first line
is plain prose -- it neither carries the title tag nor starts with a
heading hash -- the code still uses that first line as the title instead
of defaulting to Diagnosis for crop. -/
theorem C8_counterexample :
    (diagnose_plant_issue idRender ⟨true, .ok demoDiagFull⟩ ("maize".toList)).1.1 =
      "Leaf spot disease".toList ∧
    ¬ titleTag.isPrefixOf "Leaf spot disease".toList ∧
    ¬ hashStr.isPrefixOf "Leaf spot disease".toList ∧
    (diagnose_plant_issue idRender ⟨true, .ok demoDiagFull⟩ ("maize".toList)).1.1 ≠
      defaultTitle ("maize".toList) := by
  refine ⟨?_, ?_, ?_, ?_⟩ <;> decide

/-- Claim C8 amended: when the sentinel is present the title is the first
line of the stripped primary answer with every title tag and hash
character removed and then trimmed, falling back to the default title
exactly when that cleaned line is empty; when the sentinel is absent the
title is always the default. -/
theorem C8_amended (render : Str → Str) (full crop : Str) :
    (sentinel <:+: full →
      (cleanedTitleLine (splitResponse full).1 ≠ [] →
        (diagnose_plant_issue render ⟨true, .ok full⟩ crop).1.1 =
          cleanedTitleLine (splitResponse full).1) ∧
      (cleanedTitleLine (splitResponse full).1 = [] →
        (diagnose_plant_issue render ⟨true, .ok full⟩ crop).1.1 = defaultTitle crop)) ∧
    (¬ sentinel <:+: full →
      (diagnose_plant_issue render ⟨true, .ok full⟩ crop).1.1 = defaultTitle crop) := by
  have hsep : sentinel ≠ [] := by decide
  cases hfs : findSplit sentinel full with
  | none =>
    have hninf := findSplit_eq_none sentinel hsep full hfs
    refine ⟨fun h => absurd h hninf, fun _ => ?_⟩
    simp [diagnose_plant_issue, hfs]
  | some pr =>
    obtain ⟨hdec, -⟩ := findSplit_eq_some sentinel hsep full pr.1 pr.2 (by rw [hfs])
    refine ⟨fun _ => ⟨?_, ?_⟩, fun h => absurd ⟨pr.1, pr.2, hdec.symm⟩ h⟩
    · intro hne
      simp only [splitResponse, hfs] at hne ⊢
      simp [diagnose_plant_issue, hfs, extractTitle, hne]
    · intro he
      simp only [splitResponse, hfs] at he ⊢
      simp [diagnose_plant_issue, hfs, extractTitle, he]

/-- Concrete run of the amended C8 theorem: the prose first line becomes
the title. -/
theorem C8_amended_witness :
    (diagnose_plant_issue idRender ⟨true, .ok demoDiagFull⟩ ("maize".toList)).1.1 =
      cleanedTitleLine (splitResponse demoDiagFull).1 :=
  ((C8_amended idRender demoDiagFull ("maize".toList)).1 (by decide)).1 (by decide)

/-! ## Claim C1: the guest quota gate -/

/-- Claim C1 as stated is false: a guest request with the free-plan flag
already set does receive the fixed 429 quota response, but only after the
external model has been invoked (the recorded invocation flag is true), so
the rejection is not made before the prompt is built or the model called. -/
theorem C1_counterexample :
    (api_generate idRender demoOkBackend none ⟨true, none⟩ demoReq 1 emptyDB).1 =
      .quotaExceeded ∧
    (api_generate idRender demoOkBackend none ⟨true, none⟩ demoReq 1 emptyDB).2.2.2 =
      true := by
  constructor <;> decide

/-- Claim C1 amended: for a guest session with the free-plan flag set and
a successful model call whose rendered output lacks the error marker, the
response is the fixed 429 quota error independently of any elapsed time
(unchanged session and database) -- but the model has already been invoked;
with a failing model call the endpoint instead returns the 500 error. -/
theorem C1_amended (render : Str → Str) (full : Str) (sess : Session)
    (req : GenRequest) (newId : Nat) (db : DB)
    (hflag : sess.free_plan_used = true)
    (hclean : findSplit errorMarker (render (splitResponse full).1) = none) :
    api_generate render ⟨true, .ok full⟩ none sess req newId db =
      (.quotaExceeded, sess, db, true) ∧
    api_generate render ⟨true, .err⟩ none sess req newId db =
      (.serverError planErrorFragment, sess, db, true) := by
  constructor
  · simp [api_generate, generate_farm_plan, hclean, hflag]
  · have h : (findSplit errorMarker planErrorFragment).isSome = true := by decide
    simp [api_generate, generate_farm_plan, h]

/-- Concrete run of the amended C1 theorem. -/
theorem C1_amended_witness :
    api_generate idRender demoOkBackend none ⟨true, none⟩ demoReq 1 emptyDB =
      (.quotaExceeded, ⟨true, none⟩, emptyDB, true) ∧
    api_generate idRender ⟨true, .err⟩ none ⟨true, none⟩ demoReq 1 emptyDB =
      (.serverError planErrorFragment, ⟨true, none⟩, emptyDB, true) :=
  C1_amended idRender ("All fine here.".toList) ⟨true, none⟩ demoReq 1 emptyDB
    rfl (by decide)

/-! ## Claim C2: uniform not-found on non-owned rows -/

/-- Claim C2: when the requested plan or diagnosis id is not owned by the
authenticated requester -- whether the row is absent or belongs to another
user -- get, delete, and follow-up all answer with the constant not-found
response of status 404; the response being a constant independent of the
database, nothing distinguishes a row existing under another owner from a
row that does not exist. -/
theorem C2_ownership_not_found (render : Str → Str) (b : Backend) (db : DB)
    (uid pid did : Nat) (q : Str)
    (hplan : ∀ r ∈ db.plans, ¬(r.id = pid ∧ r.user_id = some uid))
    (hdiag : ∀ r ∈ db.diagnoses, ¬(r.id = did ∧ r.user_id = uid))
    (hpid : pid ≠ 0) (hdid : did ≠ 0) (hq : q ≠ [])
    (hql : ¬ (pyStrip q).length < 3) :
    get_plan db uid pid = .notFound ∧
    delete_plan db uid pid = (.notFound, db) ∧
    api_follow_up render b uid db pid q = (.notFound, db, false) ∧
    get_diagnosis db uid did = .notFound ∧
    delete_diagnosis db uid did = (.notFound, db) ∧
    api_diagnose_follow_up render b uid db did q = (.notFound, db, false) ∧
    GetPlanResp.status .notFound = 404 ∧ DeleteResp.status .notFound = 404 ∧
    FollowUpResp.status .notFound = 404 ∧ GetDiagResp.status .notFound = 404 := by
  have hfp : fetchPlan db pid uid = none := by
    rw [fetchPlan, List.find?_eq_none]
    intro r hr
    have hnr := hplan r hr
    simp only [Bool.and_eq_true, beq_iff_eq]
    exact hnr
  have hfd : fetchDiagnosis db did uid = none := by
    rw [fetchDiagnosis, List.find?_eq_none]
    intro r hr
    have hnr := hdiag r hr
    simp only [Bool.and_eq_true, beq_iff_eq]
    exact hnr
  refine ⟨?_, ?_, ?_, ?_, ?_, ?_, rfl, rfl, rfl, rfl⟩
  · simp [get_plan, hfp]
  · simp [delete_plan, hfp]
  · simp [api_follow_up, hfp, hpid, hq, hql]
  · simp [get_diagnosis, hfd]
  · simp [delete_diagnosis, hfd]
  · simp [api_diagnose_follow_up, hfd, hdid, hq, hql]

/-- Concrete run of the C2 theorem: user 1 requests ids 5 and 7, which do
exist but belong to user 2, and receives only not-found answers. -/
theorem C2_ownership_not_found_witness :
    get_plan demoDB 1 5 = .notFound ∧
    delete_plan demoDB 1 5 = (.notFound, demoDB) ∧
    api_follow_up idRender demoOkBackend 1 demoDB 5 demoQ = (.notFound, demoDB, false) ∧
    get_diagnosis demoDB 1 7 = .notFound ∧
    delete_diagnosis demoDB 1 7 = (.notFound, demoDB) ∧
    api_diagnose_follow_up idRender demoOkBackend 1 demoDB 7 demoQ =
      (.notFound, demoDB, false) ∧
    GetPlanResp.status .notFound = 404 ∧ DeleteResp.status .notFound = 404 ∧
    FollowUpResp.status .notFound = 404 ∧ GetDiagResp.status .notFound = 404 :=
  C2_ownership_not_found idRender demoOkBackend demoDB 1 5 7 demoQ
    (by decide) (by decide) (by decide) (by decide) (by decide) (by decide)

/-! ## Claim C5: unconfigured backend short-circuit -/

/-- Claim C5 as stated is false: with the backend unconfigured every
operation does short-circuit without any model call, but not to one and
the same error fragment: a follow-up call answers with its own fixed 503
body, which differs from the HTML fragment of generation and diagnosis. -/
theorem C5_counterexample :
    (generate_farm_plan idRender demoNoBackend).1.1 = unavailableFragment ∧
    (api_follow_up idRender demoNoBackend 2 demoDB 5 demoQ).1.errorBody =
      some followUpUnavailableBody ∧
    followUpUnavailableBody ≠ unavailableFragment := by
  refine ⟨?_, ?_, ?_⟩ <;> decide

/-- Claim C5 amended: whenever the backend model is unconfigured, plan
generation and diagnosis short-circuit to the same fixed unavailable HTML
fragment, and the two follow-up endpoints short-circuit to their own fixed
503 unavailable response; in every case no model call is made. -/
theorem C5_amended (render : Str → Str) (b : Backend) (crop : Str) (db : DB)
    (uid pid did : Nat) (q : Str)
    (hb : b.configured = false)
    (hpid : pid ≠ 0) (hdid : did ≠ 0) (hq : q ≠ [])
    (hql : ¬ (pyStrip q).length < 3)
    (hp : (fetchPlan db pid uid).isSome) (hd : (fetchDiagnosis db did uid).isSome) :
    generate_farm_plan render b = ((unavailableFragment, []), false) ∧
    diagnose_plant_issue render b crop = ((errorTitle, unavailableFragment, []), false) ∧
    (api_follow_up render b uid db pid q).1 = .unavailable ∧
    (api_follow_up render b uid db pid q).2.2 = false ∧
    (api_diagnose_follow_up render b uid db did q).1 = .unavailable ∧
    (api_diagnose_follow_up render b uid db did q).2.2 = false := by
  obtain ⟨plan, hplan⟩ := Option.isSome_iff_exists.mp hp
  obtain ⟨diag, hdiag⟩ := Option.isSome_iff_exists.mp hd
  refine ⟨?_, ?_, ?_, ?_, ?_, ?_⟩
  · simp [generate_farm_plan, hb]
  · simp [diagnose_plant_issue, hb]
  · simp [api_follow_up, hb, hpid, hq, hql, hplan]
  · simp [api_follow_up, hb, hpid, hq, hql, hplan]
  · simp [api_diagnose_follow_up, hb, hdid, hq, hql, hdiag]
  · simp [api_diagnose_follow_up, hb, hdid, hq, hql, hdiag]

/-- Concrete run of the amended C5 theorem, by the owner of the demo rows. -/
theorem C5_amended_witness :
    generate_farm_plan idRender demoNoBackend = ((unavailableFragment, []), false) ∧
    diagnose_plant_issue idRender demoNoBackend ("maize".toList) =
      ((errorTitle, unavailableFragment, []), false) ∧
    (api_follow_up idRender demoNoBackend 2 demoDB 5 demoQ).1 = .unavailable ∧
    (api_follow_up idRender demoNoBackend 2 demoDB 5 demoQ).2.2 = false ∧
    (api_diagnose_follow_up idRender demoNoBackend 2 demoDB 7 demoQ).1 = .unavailable ∧
    (api_diagnose_follow_up idRender demoNoBackend 2 demoDB 7 demoQ).2.2 = false :=
  C5_amended idRender demoNoBackend ("maize".toList) demoDB 2 5 7 demoQ
    rfl (by decide) (by decide) (by decide) (by decide) (by decide) (by decide)

/-! ## Claim C6: user turn durability in the follow-up endpoints -/

/-- Claim C6: in both follow-up endpoints the new user turn is appended to
the stored history before the model call is issued, so a failing model
call still leaves exactly the user turn recorded, no assistant turn, and
the generic 500 error is returned; a successful call appends the assistant
turn right after the user turn. -/
theorem C6_user_turn_durability (render : Str → Str) (uid pid did : Nat)
    (db : DB) (q answer : Str)
    (hpid : pid ≠ 0) (hdid : did ≠ 0) (hq : q ≠ [])
    (hql : ¬ (pyStrip q).length < 3)
    (hp : (fetchPlan db pid uid).isSome) (hd : (fetchDiagnosis db did uid).isSome) :
    api_follow_up render ⟨true, .err⟩ uid db pid q =
      (.serverError, { db with plan_chats := db.plan_chats ++ [(pid, userTurn q)] },
        true) ∧
    (api_follow_up render ⟨true, .ok answer⟩ uid db pid q).1 = .answer (render answer) ∧
    (api_follow_up render ⟨true, .ok answer⟩ uid db pid q).2.1 =
      { db with plan_chats :=
          db.plan_chats ++ [(pid, userTurn q), (pid, assistantTurn answer)] } ∧
    api_diagnose_follow_up render ⟨true, .err⟩ uid db did q =
      (.serverError, { db with diag_chats := db.diag_chats ++ [(did, userTurn q)] },
        true) ∧
    (api_diagnose_follow_up render ⟨true, .ok answer⟩ uid db did q).1 =
      .answer (render answer) ∧
    (api_diagnose_follow_up render ⟨true, .ok answer⟩ uid db did q).2.1 =
      { db with diag_chats :=
          db.diag_chats ++ [(did, userTurn q), (did, assistantTurn answer)] } := by
  obtain ⟨plan, hplan⟩ := Option.isSome_iff_exists.mp hp
  obtain ⟨diag, hdiag⟩ := Option.isSome_iff_exists.mp hd
  refine ⟨?_, ?_, ?_, ?_, ?_, ?_⟩ <;>
    simp [api_follow_up, api_diagnose_follow_up, Backend.generate,
      hpid, hdid, hq, hql, hplan, hdiag]

/-- Concrete run of the C6 theorem against the demo database. -/
theorem C6_user_turn_durability_witness :
    api_follow_up idRender ⟨true, .err⟩ 2 demoDB 5 demoQ =
      (.serverError,
        { demoDB with plan_chats := demoDB.plan_chats ++ [(5, userTurn demoQ)] },
        true) ∧
    (api_follow_up idRender ⟨true, .ok demoAnswer⟩ 2 demoDB 5 demoQ).1 =
      .answer (idRender demoAnswer) ∧
    (api_follow_up idRender ⟨true, .ok demoAnswer⟩ 2 demoDB 5 demoQ).2.1 =
      { demoDB with plan_chats :=
          demoDB.plan_chats ++ [(5, userTurn demoQ), (5, assistantTurn demoAnswer)] } ∧
    api_diagnose_follow_up idRender ⟨true, .err⟩ 2 demoDB 7 demoQ =
      (.serverError,
        { demoDB with diag_chats := demoDB.diag_chats ++ [(7, userTurn demoQ)] },
        true) ∧
    (api_diagnose_follow_up idRender ⟨true, .ok demoAnswer⟩ 2 demoDB 7 demoQ).1 =
      .answer (idRender demoAnswer) ∧
    (api_diagnose_follow_up idRender ⟨true, .ok demoAnswer⟩ 2 demoDB 7 demoQ).2.1 =
      { demoDB with diag_chats :=
          demoDB.diag_chats ++ [(7, userTurn demoQ), (7, assistantTurn demoAnswer)] } :=
  C6_user_turn_durability idRender 2 5 7 demoDB demoQ demoAnswer
    (by decide) (by decide) (by decide) (by decide) (by decide) (by decide)

/-! ## Claim C7: conversation assembly -/

/-- appearsInOrder is preserved by prepending text. -/
theorem appearsInOrder_prepend (ps : List Str) (u0 s : Str)
    (h : appearsInOrder ps s) : appearsInOrder ps (u0 ++ s) := by
  cases ps with
  | nil => trivial
  | cons p ps =>
    obtain ⟨u, v, huv, hrest⟩ := h
    exact ⟨u0 ++ u, v, by rw [huv]; simp [List.append_assoc], hrest⟩

/-- The block of rendered turns realizes the in-order occurrence of the
role-prefixed turn pieces, continued by whatever follows the block. -/
theorem appearsInOrder_turns (l : List ChatTurn) (qs : List Str) (rest : Str)
    (h : appearsInOrder qs rest) :
    appearsInOrder
      ((l.map fun t => pyCapitalize t.role ++ ": ".toList ++ t.content) ++ qs)
      ((l.map renderTurn).flatten ++ rest) := by
  induction l with
  | nil => simpa using h
  | cons t l ih =>
    refine ⟨[], ['\n'] ++ ((l.map renderTurn).flatten ++ rest), ?_, ?_⟩
    · simp [renderTurn, List.append_assoc]
    · exact appearsInOrder_prepend _ ['\n'] _ ih

set_option maxRecDepth 16384 in
/-- Claim C7 as stated is false: the framing lines of the two assemblers
name the artifact (Initial Farm Plan: and Initial Diagnosis:, lines 596
and 651), not any assistant expertise, and the closing lines ask for a
helpful answer (lines 599 and 654), not a detailed one in an expert
voice: on the specification's own example the complete transcripts
contain neither the word expert nor the word detailed, they begin with
the fixed artifact-naming framing line, and they end with the fixed
closing line -- the diagnosis one without even the word practical. -/
theorem C7_counterexample :
    ¬ "expert".toList <:+:
      buildPlanConversation ("<p>the plan</p>".toList) demoHistory ("Q2".toList) ∧
    ¬ "detailed".toList <:+:
      buildPlanConversation ("<p>the plan</p>".toList) demoHistory ("Q2".toList) ∧
    ¬ "expert".toList <:+:
      buildDiagConversation ("<p>the report</p>".toList) demoHistory ("Q2".toList) ∧
    ¬ "detailed".toList <:+:
      buildDiagConversation ("<p>the report</p>".toList) demoHistory ("Q2".toList) ∧
    "Initial Farm Plan:\n".toList.isPrefixOf
      (buildPlanConversation ("<p>the plan</p>".toList) demoHistory ("Q2".toList)) = true ∧
    "Initial Diagnosis:\n".toList.isPrefixOf
      (buildDiagConversation ("<p>the report</p>".toList) demoHistory ("Q2".toList)) = true ∧
    "\n\nProvide a helpful, practical answer:".toList <:+
      buildPlanConversation ("<p>the plan</p>".toList) demoHistory ("Q2".toList) ∧
    "\n\nProvide a helpful answer:".toList <:+
      buildDiagConversation ("<p>the report</p>".toList) demoHistory ("Q2".toList) ∧
    ¬ "practical".toList <:+:
      buildDiagConversation ("<p>the report</p>".toList) demoHistory ("Q2".toList) := by
  refine ⟨?_, ?_, ?_, ?_, ?_, ?_, ?_, ?_, ?_⟩ <;> decide

/-- Claim C7 amended: each follow-up conversation is a single linear
transcript in which the fixed framing line naming the artifact, the
original artifact HTML verbatim, every prior turn rendered as capitalized
role, colon, content (in chronological order), the new user question, and
the fixed closing line asking for a helpful answer appear in this order. -/
theorem C7_conversation_structure (planHtml reportHtml : Str)
    (history : List ChatTurn) (q : Str) :
    appearsInOrder
      ("Initial Farm Plan:".toList :: planHtml ::
        ((history.map fun t => pyCapitalize t.role ++ ": ".toList ++ t.content) ++
          [q, "Provide a helpful, practical answer:".toList]))
      (buildPlanConversation planHtml history q) ∧
    appearsInOrder
      ("Initial Diagnosis:".toList :: reportHtml ::
        ((history.map fun t => pyCapitalize t.role ++ ": ".toList ++ t.content) ++
          [q, "Provide a helpful answer:".toList]))
      (buildDiagConversation reportHtml history q) := by
  constructor
  · refine ⟨[], ['\n'] ++ (planHtml ++ ("\n\n".toList ++
      ((history.map renderTurn).flatten ++ (newQuestionPart q ++
        "\n\nProvide a helpful, practical answer:".toList)))), ?_, ?_⟩
    · have hlit : ("Initial Farm Plan:\n".toList : Str) =
          "Initial Farm Plan:".toList ++ ['\n'] := by decide
      rw [buildPlanConversation, hlit]
      simp [List.append_assoc]
    · refine ⟨['\n'], "\n\n".toList ++ ((history.map renderTurn).flatten ++
        (newQuestionPart q ++ "\n\nProvide a helpful, practical answer:".toList)), ?_, ?_⟩
      · simp [List.append_assoc]
      · apply appearsInOrder_prepend
        apply appearsInOrder_turns
        refine ⟨['\n'] ++ "User".toList ++ [sq] ++ "s new question: ".toList,
          "\n\nProvide a helpful, practical answer:".toList, ?_, ?_⟩
        · simp [newQuestionPart, List.append_assoc]
        · refine ⟨"\n\n".toList, [], ?_, trivial⟩
          decide
  · refine ⟨[], ['\n'] ++ (reportHtml ++ ("\n\n".toList ++
      ((history.map renderTurn).flatten ++ (newQuestionPart q ++
        "\n\nProvide a helpful answer:".toList)))), ?_, ?_⟩
    · have hlit : ("Initial Diagnosis:\n".toList : Str) =
          "Initial Diagnosis:".toList ++ ['\n'] := by decide
      rw [buildDiagConversation, hlit]
      simp [List.append_assoc]
    · refine ⟨['\n'], "\n\n".toList ++ ((history.map renderTurn).flatten ++
        (newQuestionPart q ++ "\n\nProvide a helpful answer:".toList)), ?_, ?_⟩
      · simp [List.append_assoc]
      · apply appearsInOrder_prepend
        apply appearsInOrder_turns
        refine ⟨['\n'] ++ "User".toList ++ [sq] ++ "s new question: ".toList,
          "\n\nProvide a helpful answer:".toList, ?_, ?_⟩
        · simp [newQuestionPart, List.append_assoc]
        · refine ⟨"\n\n".toList, [], ?_, trivial⟩
          decide

/-- Concrete run of the C7 theorem on the specification's own example: the
artifact, then User: Q1, then Assistant: A1, then Q2 appear in order. -/
theorem C7_conversation_structure_witness :
    appearsInOrder
      ["Initial Farm Plan:".toList, "<p>the plan</p>".toList, "User: Q1".toList,
        "Assistant: A1".toList, "Q2".toList,
        "Provide a helpful, practical answer:".toList]
      (buildPlanConversation ("<p>the plan</p>".toList) demoHistory ("Q2".toList)) :=
  (C7_conversation_structure ("<p>the plan</p>".toList) [] demoHistory ("Q2".toList)).1

/-! ## Claim C9: showcase idempotence -/

/-- After the showcase update, the same ownership lookup finds the same
row, now carrying the fresh token. -/
theorem find_setShowcase (l : List FarmPlanRow) (pid uid : Nat) (f : Str)
    (plan : FarmPlanRow)
    (h : l.find? (fun r => r.id == pid && r.user_id == some uid) = some plan) :
    (l.map fun r =>
        if r.id == pid && r.user_id == some uid then { r with showcase_id := some f }
        else r).find? (fun r => r.id == pid && r.user_id == some uid) =
      some { plan with showcase_id := some f } := by
  induction l with
  | nil => simp at h
  | cons r l ih =>
    by_cases hc : (r.id == pid && r.user_id == some uid) = true
    · rw [List.find?_cons_of_pos (p := fun r : FarmPlanRow => r.id == pid && r.user_id == some uid)
        _ hc] at h
      simp only [Option.some.injEq] at h
      subst h
      simp only [List.map_cons, if_pos hc]
      apply List.find?_cons_of_pos
      simpa using hc
    · rw [List.find?_cons_of_neg (p := fun r : FarmPlanRow => r.id == pid && r.user_id == some uid)
        _ hc] at h
      simp only [List.map_cons, if_neg hc]
      rw [List.find?_cons_of_neg (p := fun r : FarmPlanRow => r.id == pid && r.user_id == some uid)
        _ hc]
      exact ih h

/-- The ownership lookup against the updated database. -/
theorem fetchPlan_setShowcase (db : DB) (pid uid : Nat) (f : Str)
    (plan : FarmPlanRow) (h : fetchPlan db pid uid = some plan) :
    fetchPlan (setShowcase db pid uid f) pid uid =
      some { plan with showcase_id := some f } := by
  have hf := find_setShowcase db.plans pid uid f plan h
  simpa [fetchPlan, setShowcase] using hf

/-- Claim C9: showcase-token assignment is idempotent: for a plan owned by
the requester, two successive create-showcase calls return one and the
same token and the second call changes nothing; moreover a token already
assigned is returned as is, with the database untouched. -/
theorem C9_showcase_idempotent (db : DB) (uid pid : Nat) (f1 f2 : Str)
    (plan : FarmPlanRow)
    (hpid : pid ≠ 0) (hown : fetchPlan db pid uid = some plan) (hf1 : f1 ≠ []) :
    (∃ t, t ≠ [] ∧
      (api_create_showcase db uid pid f1).1 = .ok t ∧
      (api_create_showcase (api_create_showcase db uid pid f1).2 uid pid f2).1 =
        .ok t ∧
      (api_create_showcase (api_create_showcase db uid pid f1).2 uid pid f2).2 =
        (api_create_showcase db uid pid f1).2) ∧
    (∀ t0, plan.showcase_id = some t0 → t0 ≠ [] →
      api_create_showcase db uid pid f1 = (.ok t0, db)) := by
  constructor
  · cases hshow : plan.showcase_id with
    | some t0 =>
      by_cases ht0 : t0 = []
      · subst ht0
        have hsecond := fetchPlan_setShowcase db pid uid f1 plan hown
        refine ⟨f1, hf1, ?_, ?_, ?_⟩ <;>
          simp [api_create_showcase, hpid, hown, hshow, hsecond, hf1]
      · refine ⟨t0, ht0, ?_, ?_, ?_⟩ <;>
          simp [api_create_showcase, hpid, hown, hshow, ht0]
    | none =>
      have hsecond := fetchPlan_setShowcase db pid uid f1 plan hown
      refine ⟨f1, hf1, ?_, ?_, ?_⟩ <;>
        simp [api_create_showcase, hpid, hown, hshow, hsecond, hf1]
  · intro t0 h0 hne
    simp [api_create_showcase, hpid, hown, h0, hne]

/-- Concrete run of the C9 theorem on the demo plan of user 2. -/
theorem C9_showcase_idempotent_witness :
    (∃ t, t ≠ [] ∧
      (api_create_showcase demoDB 2 5 ("token-a".toList)).1 = .ok t ∧
      (api_create_showcase (api_create_showcase demoDB 2 5 ("token-a".toList)).2
          2 5 ("token-b".toList)).1 = .ok t ∧
      (api_create_showcase (api_create_showcase demoDB 2 5 ("token-a".toList)).2
          2 5 ("token-b".toList)).2 =
        (api_create_showcase demoDB 2 5 ("token-a".toList)).2) ∧
    (∀ t0, demoPlanRow.showcase_id = some t0 → t0 ≠ [] →
      api_create_showcase demoDB 2 5 ("token-a".toList) = (.ok t0, demoDB)) :=
  C9_showcase_idempotent demoDB 2 5 ("token-a".toList) ("token-b".toList)
    demoPlanRow (by decide) (by decide) (by decide)

/-! ## Claim C10: substring-based failure classification -/

/-- Claim C10: the generation endpoint answers 500 and stores nothing
exactly when the produced plan HTML contains the substring error-message,
and the diagnosis endpoint answers 500 and stores nothing exactly when the
extracted title contains the substring Error; consequently the concrete
successful outputs below, whose legitimate content contains these
substrings, are reported as failures and nothing is stored. -/
theorem C10_substring_failure (render : Str → Str) (b : Backend)
    (auth : Option Nat) (sess : Session) (req : GenRequest) (newId : Nat)
    (db : DB) (uid : Nat) (crop : Str) :
    (((∃ body, (api_generate render b auth sess req newId db).1 = .serverError body) ∧
        (api_generate render b auth sess req newId db).2.2.1 = db) ↔
      errorMarker <:+: (generate_farm_plan render b).1.1) ∧
    (((∃ body, (api_diagnose render b uid crop newId db).1 = .serverError body) ∧
        (api_diagnose render b uid crop newId db).2.1 = db) ↔
      titleErrorMarker <:+: (diagnose_plant_issue render b crop).1.1) ∧
    (api_generate idRender ⟨true, .ok demoMarkerPlan⟩ (some 1) ⟨false, none⟩
        demoReq 9 emptyDB).1.status = 500 ∧
    (api_generate idRender ⟨true, .ok demoMarkerPlan⟩ (some 1) ⟨false, none⟩
        demoReq 9 emptyDB).2.2.1 = emptyDB ∧
    (api_diagnose idRender ⟨true, .ok demoErrorTitleFull⟩ 1 ("maize".toList) 9
        emptyDB).1.status = 500 ∧
    (api_diagnose idRender ⟨true, .ok demoErrorTitleFull⟩ 1 ("maize".toList) 9
        emptyDB).2.1 = emptyDB := by
  have hg : errorMarker ≠ [] := by decide
  have ht : titleErrorMarker ≠ [] := by decide
  refine ⟨?_, ?_, by decide, by decide, by decide, by decide⟩
  · cases hm : findSplit errorMarker (generate_farm_plan render b).1.1 with
    | some pr =>
      obtain ⟨hdec, -⟩ := findSplit_eq_some errorMarker hg _ pr.1 pr.2 (by rw [hm])
      have hsome : (findSplit errorMarker (generate_farm_plan render b).1.1).isSome :=
        by rw [hm]; rfl
      constructor
      · intro _
        exact ⟨pr.1, pr.2, hdec.symm⟩
      · intro _
        refine ⟨⟨(generate_farm_plan render b).1.1, ?_⟩, ?_⟩ <;>
          simp [api_generate, hsome]
    | none =>
      have hninf := findSplit_eq_none errorMarker hg _ hm
      have hnone : (findSplit errorMarker (generate_farm_plan render b).1.1).isSome =
          false := by rw [hm]; rfl
      constructor
      · rintro ⟨⟨body, hb'⟩, -⟩
        exfalso
        rcases auth with - | uid'
        · by_cases hfl : sess.free_plan_used <;>
            simp [api_generate, hnone, hfl] at hb'
        · simp [api_generate, hnone] at hb'
      · intro hinf
        exact absurd hinf hninf
  · cases hm : findSplit titleErrorMarker (diagnose_plant_issue render b crop).1.1 with
    | some pr =>
      obtain ⟨hdec, -⟩ := findSplit_eq_some titleErrorMarker ht _ pr.1 pr.2 (by rw [hm])
      have hsome :
          (findSplit titleErrorMarker (diagnose_plant_issue render b crop).1.1).isSome :=
        by rw [hm]; rfl
      constructor
      · intro _
        exact ⟨pr.1, pr.2, hdec.symm⟩
      · intro _
        refine ⟨⟨(diagnose_plant_issue render b crop).1.2.1, ?_⟩, ?_⟩ <;>
          simp [api_diagnose, hsome]
    | none =>
      have hninf := findSplit_eq_none titleErrorMarker ht _ hm
      have hnone :
          (findSplit titleErrorMarker (diagnose_plant_issue render b crop).1.1).isSome =
            false := by rw [hm]; rfl
      constructor
      · rintro ⟨⟨body, hb'⟩, -⟩
        simp [api_diagnose, hnone] at hb'
      · intro hinf
        exact absurd hinf hninf

/-- Concrete run of the C10 theorem: a successful model output mentioning
error-message in legitimate prose is classified as a backend failure and
nothing is stored. -/
theorem C10_substring_failure_witness :
    (∃ body, (api_generate idRender ⟨true, ModelResult.ok demoMarkerPlan⟩ (some 1)
        ⟨false, none⟩ demoReq 9 emptyDB).1 = .serverError body) ∧
    (api_generate idRender ⟨true, ModelResult.ok demoMarkerPlan⟩ (some 1)
        ⟨false, none⟩ demoReq 9 emptyDB).2.2.1 = emptyDB :=
  ((C10_substring_failure idRender ⟨true, .ok demoMarkerPlan⟩ (some 1) ⟨false, none⟩
      demoReq 9 emptyDB 1 ("maize".toList)).1).mpr (by decide)

end YieldWise
